import Mathlib

/-!
Shallow embedding of the real-time device/video subsystem of the
warehouse tracker (FastAPI backend in `app/routers/raspberry_pi.py`,
`app/routers/video.py`, and the standalone Flask pipeline
`video_processor.py`), together with theorems settling the spec claims.

Python dicts are embedded as association lists with update-in-place
semantics; side effects (socket accepts/closes, socket writes, outbound
messages) are embedded as explicit effect traces; wall-clock times are
Nats supplied per event.  Definitions come first, then the theorems.
-/

namespace BrikaSadi9a

/-! Dictionary embedding (Python `dict` with string keys). -/

/-- Python dict write `m[k] = v`: replace in place when the key is
present, append otherwise. -/
def dictInsert (m : List (String × Nat)) (k : String) (v : Nat) :
    List (String × Nat) :=
  if m.any (fun p => p.1 = k) then
    m.map (fun p => if p.1 = k then (k, v) else p)
  else
    m ++ [(k, v)]

/-- Python dict read `m[k]` / `m.get(k)`. -/
def dictLookup (m : List (String × Nat)) (k : String) : Option Nat :=
  (m.find? (fun p => p.1 = k)).map (fun p => p.2)

/-- Python dict membership `k in m`. -/
def dictContains (m : List (String × Nat)) (k : String) : Bool :=
  m.any (fun p => p.1 = k)

/-- Python dict delete `del m[k]` guarded by a membership test (removes
all bindings of `k`, of which a dict has at most one). -/
def dictErase (m : List (String × Nat)) (k : String) : List (String × Nat) :=
  m.filter (fun p => p.1 ≠ k)

/-! ConnectionManager (`app/routers/raspberry_pi.py`, lines 19-39).

The field `active_connections : Dict[str, WebSocket]` maps a device id to
its live websocket; websockets are numbered by `Nat`.  Socket lifecycle
calls (`websocket.accept()`, `websocket.close()`) are recorded in an
effect trace so that "the superseded connection is closed" is observable. -/

inductive ConnEffect where
  | accept (c : Nat)
  | close (c : Nat)
  deriving DecidableEq, Repr

structure ConnState where
  active : List (String × Nat)
  effects : List ConnEffect
  deriving DecidableEq, Repr

def ConnState.init : ConnState := ⟨[], []⟩

namespace ConnectionManager

/-- Method `connect`: `await websocket.accept()` then
`self.active_connections[device_id] = websocket`.  The source performs no
close of a previously stored websocket. -/
def connect (s : ConnState) (device_id : String) (websocket : Nat) : ConnState :=
  { s with
    effects := s.effects ++ [ConnEffect.accept websocket]
    active := dictInsert s.active device_id websocket }

/-- Method `disconnect`: `if device_id in active_connections: del ...`. -/
def disconnect (s : ConnState) (device_id : String) : ConnState :=
  if dictContains s.active device_id then
    { s with active := dictErase s.active device_id }
  else s

/-- Method `is_connected`: `device_id in self.active_connections`. -/
def is_connected (s : ConnState) (device_id : String) : Bool :=
  dictContains s.active device_id

end ConnectionManager

/-- Number of times connection `c` was closed, read off the effect trace. -/
def countClose (es : List ConnEffect) (c : Nat) : Nat :=
  es.count (ConnEffect.close c)

/-! Command dispatch (`app/routers/raspberry_pi.py`, lines 169-214).

The route handler `send_command` either raises an `HTTPException` or
returns a `RaspberryPiCommandResponse`; socket writes performed via
`manager.send_command` are recorded as a trace of `CommandWrite`s. -/

structure CommandWrite where
  device_id : String
  command : String
  deriving DecidableEq, Repr

inductive DispatchResult where
  /-- Models `raise HTTPException(status_code, detail)`. -/
  | httpError (status_code : Nat) (detail : String)
  /-- Models `RaspberryPiCommandResponse(device_id, status, error / result)`. -/
  | cmdResponse (device_id : String) (status : String) (error : Option String)
  deriving DecidableEq, Repr

def DispatchResult.isCmdResponse : DispatchResult → Bool
  | .httpError _ _ => false
  | .cmdResponse _ _ _ => true

/-- Method `ConnectionManager.send_command`: writes to the stored
websocket and returns `True` when the device id is present, else returns
`False`. -/
def ConnectionManager.send_command (s : ConnState) (device_id : String)
    (command : String) : Bool × List CommandWrite :=
  if dictContains s.active device_id then (true, [⟨device_id, command⟩])
  else (false, [])

/-- The `/command` route handler: 404 when the device id is not in the
database; a structured error response when it is not connected; otherwise
forward through `manager.send_command` and report the transport result.
`dbIds` is the set of `device_id`s present in the `RaspberryPiDevice`
table. -/
def send_command_route (dbIds : List String) (s : ConnState)
    (device_id command : String) : DispatchResult × List CommandWrite :=
  if ¬ dbIds.contains device_id then
    (DispatchResult.httpError 404 "Device not found", [])
  else if ¬ ConnectionManager.is_connected s device_id then
    (DispatchResult.cmdResponse device_id "error" (some "Device is not connected"), [])
  else
    let r := ConnectionManager.send_command s device_id command
    if r.1 then
      (DispatchResult.cmdResponse device_id "sent" none, r.2)
    else
      (DispatchResult.cmdResponse device_id "error" (some "Failed to send command"), r.2)

/-! Device websocket endpoint (`app/routers/raspberry_pi.py`, lines 217-269).

The read loop of `websocket_endpoint` is embedded as a step function over
a list of timestamped inbound events.  A `json.loads` failure is the
`malformed` event (caught by the bare `except Exception` handler); a
`WebSocketDisconnect` is the `disconnect` event; a successfully parsed
message carries its `message.get("type")` value. -/

inductive Inbound where
  /-- Parse succeeded (`json.loads`); `ty` is `message.get("type")`. -/
  | valid (ty : Option String)
  /-- Parse or handler raised a plain `Exception`. -/
  | malformed
  /-- The read raised `WebSocketDisconnect`. -/
  | disconnect
  deriving DecidableEq, Repr

structure DevState where
  is_online : Bool
  last_seen : Option Nat
  deriving DecidableEq, Repr

inductive Outbound where
  | heartbeat_ack
  deriving DecidableEq, Repr

/-- Connection establishment (lines 233-238): install the connection, set
`is_online = True`, `last_seen = datetime.utcnow()`. -/
def wsEstablish (now : Nat) (dev : DevState) : DevState :=
  { dev with is_online := true, last_seen := some now }

/-- One iteration of the read loop with its surrounding handlers, at wall
clock `now`.  Returns the device row after the iteration, the messages
sent back to the device, and whether the loop continues. -/
def wsStep (now : Nat) (dev : DevState) : Inbound → DevState × List Outbound × Bool
  | Inbound.valid (some "heartbeat") =>
      ({ dev with last_seen := some now }, [Outbound.heartbeat_ack], true)
  | Inbound.valid (some "scan_result") => (dev, [], true)
  | Inbound.valid (some "sensor_data") => (dev, [], true)
  | Inbound.valid _ => (dev, [], true)
  | Inbound.malformed =>
      ({ dev with is_online := false }, [], false)
  | Inbound.disconnect =>
      ({ dev with is_online := false, last_seen := some now }, [], false)

/-- The read loop over a list of timestamped inbound events; stops at the
first event whose step reports the loop over. -/
def wsRun (dev : DevState) : List (Nat × Inbound) → DevState × List Outbound
  | [] => (dev, [])
  | (t, ev) :: rest =>
    let r := wsStep t dev ev
    if r.2.2 then
      let r' := wsRun r.1 rest
      (r'.1, r.2.1 ++ r'.2)
    else
      (r.1, r.2.1)

/-! Product lookup cache (`video_processor.py`, lines 22-53 and 249-255).

The module-level `product_cache` is a dict from QR payload to display
name; the external lookup (the HTTP GET against `/products/qr/{code}`, or
the DB query in `app/routers/video.py`) is a parameter
`api : String → Option String`, where `some name` stands for a 200
response carrying the product name and `none` for a non-200 response or a
raised exception. -/

def cacheInsert (m : List (String × String)) (k v : String) :
    List (String × String) :=
  if m.any (fun p => p.1 = k) then
    m.map (fun p => if p.1 = k then (k, v) else p)
  else
    m ++ [(k, v)]

def cacheLookup (m : List (String × String)) (k : String) : Option String :=
  (m.find? (fun p => p.1 = k)).map (fun p => p.2)

structure LookupResult where
  name : String
  cache : List (String × String)
  /-- how many times the external lookup ran during this call -/
  externalCalls : Nat
  deriving DecidableEq, Repr

/-- Function `get_product_by_qr`: return the cached name on a hit;
otherwise run the external lookup once, memoize only on success, and fall
back to the raw QR payload on a miss. -/
def get_product_by_qr (api : String → Option String)
    (cache : List (String × String)) (qr_code : String) : LookupResult :=
  match cacheLookup cache qr_code with
  | some name => ⟨name, cache, 0⟩
  | none =>
    match api qr_code with
    | some name => ⟨name, cacheInsert cache qr_code name, 1⟩
    | none => ⟨qr_code, cache, 1⟩

/-- The operations the subsystem performs on `product_cache`: a lookup
(the only writer on the annotation path, via `get_product_by_qr`) and the
`/clear_cache` endpoint, which rebinds `product_cache = {}`
(`video_processor.py`, lines 249-255). -/
inductive CacheOp where
  /-- a `get_product_by_qr` call against the given upstream -/
  | lookupOp (api : String → Option String) (qr_code : String)
  /-- the `/clear_cache` route: `product_cache = {}` -/
  | clearOp

def applyCacheOp (cache : List (String × String)) : CacheOp → List (String × String)
  | CacheOp.lookupOp api qr => (get_product_by_qr api cache qr).cache
  | CacheOp.clearOp => []

/-! Stream reassembly (`video_processor.py`, lines 138-175; identical
framing logic in `app/routers/video.py`, lines 90-118).

Bytes are `Nat`s; the JPEG start-of-image marker is the pair
`0xff 0xd8` (255, 216) and end-of-image is `0xff 0xd9` (255, 217).
`findPair bs a b` embeds `bytes.find(b'ab')`: the index of the first
occurrence of the two-byte pattern, `none` for Python's `-1`. -/

def findPair : List Nat → Nat → Nat → Option Nat
  | x :: y :: rest, a, b =>
    if x = a ∧ y = b then some 0
    else (findPair (y :: rest) a b).map (fun i => i + 1)
  | _, _, _ => none

structure StreamState where
  /-- the reassembly buffer `bytes_data` -/
  buffer : List Nat
  /-- the `jpg_data` byte runs handed to `cv2.imdecode`, in order -/
  frames : List (List Nat)
  deriving DecidableEq, Repr

def StreamState.init : StreamState := ⟨[], []⟩

/-- One iteration of `for chunk in stream.iter_content(...)`:
`bytes_data += chunk`, then a single marker scan; when both markers are
found with `end > start`, `jpg_data = bytes_data[start:end+2]` is emitted
and `bytes_data = bytes_data[end+2:]`. -/
def processChunk (s : StreamState) (chunk : List Nat) : StreamState :=
  let bs := s.buffer ++ chunk
  match findPair bs 255 216, findPair bs 255 217 with
  | some start, some stop =>
    if start < stop then
      { buffer := bs.drop (stop + 2),
        frames := s.frames ++ [(bs.take (stop + 2)).drop start] }
    else ⟨bs, s.frames⟩
  | some _, none => ⟨bs, s.frames⟩
  | none, _ => ⟨bs, s.frames⟩

def processChunks (chunks : List (List Nat)) : StreamState :=
  chunks.foldl processChunk StreamState.init

/-- A well-formed frame for the spec's framing discipline: at least four
bytes, the first start marker at offset 0, and the first end marker as
the final two bytes. -/
def wellFormedFrame (f : List Nat) : Prop :=
  4 ≤ f.length ∧ findPair f 255 216 = some 0 ∧
    findPair f 255 217 = some (f.length - 2)

instance (f : List Nat) : Decidable (wellFormedFrame f) := by
  unfold wellFormedFrame
  infer_instance

/-! Frame annotator (`video_processor.py`, lines 56-135).

The call `pyzbar.decode(frame)` returns a list of detections; each
carries a `polygon` (list of points), a `rect`, and a decoded `data`
payload.  The cv2 drawing calls are recorded as a list of `Annot`
effects; a frame is represented by its detections plus the drawing trace.
The text measurement `cv2.getTextSize` is an external collaborator passed
as `textSize`. -/

structure QRPoint where
  x : Int
  y : Int
  deriving DecidableEq, Repr

structure QRRect where
  left : Int
  top : Int
  width : Int
  height : Int
  deriving DecidableEq, Repr

structure QRCodeDet where
  polygon : List QRPoint
  rect : QRRect
  data : String
  deriving DecidableEq, Repr

inductive Annot where
  /-- Models `cv2.polylines(frame, [pts], True, (0,255,0), 3)`. -/
  | polylineBox (pts : List QRPoint)
  /-- the fallback `cv2.rectangle(..., 3)` outline -/
  | rectOutline (x1 y1 x2 y2 : Int)
  /-- the filled `cv2.rectangle(..., -1)` label background -/
  | rectFilled (x1 y1 x2 y2 : Int)
  /-- Models `cv2.putText(frame, text, (x, y), ...)`. -/
  | putText (text : String) (x y : Int)
  deriving DecidableEq, Repr

/-- Python `min(p.x for p in points)` (the source only evaluates it on
the four-point branch, where the list is nonempty). -/
def minX : List QRPoint → Int
  | [] => 0
  | p :: rest => rest.foldl (fun m q => min m q.x) p.x

def minY : List QRPoint → Int
  | [] => 0
  | p :: rest => rest.foldl (fun m q => min m q.y) p.y

/-- The body of `for qr in qr_codes` with the drawing calls as effects;
returns this detection's annotations and the cache after its lookup. -/
def annotateQR (textSize : String → Int × Int) (api : String → Option String)
    (cache : List (String × String)) (qr : QRCodeDet) :
    List Annot × List (String × String) :=
  if qr.polygon.length = 4 then
    let r := get_product_by_qr api cache qr.data
    let x_min := minX qr.polygon
    let y_min := minY qr.polygon
    let ts := textSize r.name
    ([Annot.polylineBox qr.polygon,
      Annot.rectFilled x_min (y_min - ts.2 - 15) (x_min + ts.1 + 10) (y_min - 5),
      Annot.putText r.name (x_min + 5) (y_min - 10)], r.cache)
  else
    let r := get_product_by_qr api cache qr.data
    ([Annot.rectOutline qr.rect.left qr.rect.top
        (qr.rect.left + qr.rect.width) (qr.rect.top + qr.rect.height),
      Annot.putText r.name qr.rect.left (qr.rect.top - 10)], r.cache)

/-- Function `process_frame`: loop over every detection, accumulating the
drawing trace and threading the cache. -/
def process_frame (textSize : String → Int × Int) (api : String → Option String)
    (cache : List (String × String)) :
    List QRCodeDet → List Annot × List (String × String)
  | [] => ([], cache)
  | qr :: rest =>
    let r := annotateQR textSize api cache qr
    let r' := process_frame textSize api r.2 rest
    (r.1 ++ r'.1, r'.2)

/-- An outline drawing: the polygon box or the fallback rectangle. -/
def Annot.isOutline : Annot → Bool
  | Annot.polylineBox _ => true
  | Annot.rectOutline _ _ _ _ => true
  | _ => false

/-- A label drawing (`cv2.putText`). -/
def Annot.isLabel : Annot → Bool
  | Annot.putText _ _ _ => true
  | _ => false

/-! Device listing (`app/routers/raspberry_pi.py`, lines 75-93).

The handler `get_devices(online_only)` filters the query on the persisted
`is_online` column, then overwrites each returned row's `is_online` from
the live connection map. -/

structure DeviceRec where
  device_id : String
  is_online : Bool
  deriving DecidableEq, Repr

/-- The `/devices` handler: `dbDevices` is the `RaspberryPiDevice` table
in query order, `conns` the keys of `manager.active_connections`. -/
def get_devices (dbDevices : List DeviceRec) (conns : List String)
    (online_only : Bool) : List DeviceRec :=
  let devices := if online_only then dbDevices.filter (fun d => d.is_online)
                 else dbDevices
  devices.map (fun d => { d with is_online := conns.contains d.device_id })

/-! Formalizations of the claims exactly as stated (those that are
refuted below). -/

/-- C1 as stated: after `connect id c1; connect id c2` the first
connection has been closed exactly once. -/
def C1_claim : Prop :=
  ∀ (s : ConnState) (id : String) (c1 c2 : Nat),
    countClose
      (ConnectionManager.connect (ConnectionManager.connect s id c1) id c2).effects
      c1 = 1

/-- C2 as stated: dispatch to an unregistered id returns a structured
result (never throws). -/
def C2_claim : Prop :=
  ∀ (dbIds : List String) (s : ConnState) (device_id command : String),
    dbIds.contains device_id = false →
    (send_command_route dbIds s device_id command).1.isCmdResponse = true

/-- C3 as stated: every connection termination (graceful close, protocol
error, or read failure) both marks the device offline and records
last-seen at the termination instant. -/
def C3_claim : Prop :=
  ∀ (now : Nat) (dev : DevState) (ev : Inbound),
    (wsStep now dev ev).2.2 = false →
    (wsStep now dev ev).1.is_online = false ∧
    (wsStep now dev ev).1.last_seen = some now

/-- C4 as stated: for every scan code, calling the lookup twice performs
the external lookup at most once. -/
def C4_claim : Prop :=
  ∀ (api : String → Option String) (cache : List (String × String)) (qr : String),
    (get_product_by_qr api cache qr).externalCalls
      + (get_product_by_qr api (get_product_by_qr api cache qr).cache qr).externalCalls
      ≤ 1

/-- C5 as stated: for every two well-formed frames and every chunking of
their concatenation, the loop emits exactly those two byte runs. -/
def C5_claim : Prop :=
  ∀ (f1 f2 : List Nat) (chunks : List (List Nat)),
    wellFormedFrame f1 → wellFormedFrame f2 →
    chunks.flatten = f1 ++ f2 →
    (processChunks chunks).frames = [f1, f2]

/-- C6 as stated: a malformed inbound message is dropped and the read
loop continues. -/
def C6_claim : Prop :=
  ∀ (now : Nat) (dev : DevState),
    (wsStep now dev Inbound.malformed).2.2 = true

/-- C7 as stated: the reassembly buffer is bounded by some fixed cap over
all inputs. -/
def C7_claim : Prop :=
  ∃ cap : Nat, ∀ chunks : List (List Nat),
    (processChunks chunks).buffer.length ≤ cap

/-- C9 as stated: no operation of the subsystem removes or invalidates a
populated cache entry. -/
def C9_claim : Prop :=
  ∀ (cache : List (String × String)) (k v : String) (op : CacheOp),
    cacheLookup cache k = some v →
    cacheLookup (applyCacheOp cache op) k = some v

/-! Theorems.  Helper lemmas first, then per-claim counterexamples,
amended statements, and witnesses. -/

theorem dictLookup_dictInsert (m : List (String × Nat)) (k : String) (v : Nat) :
    dictLookup (dictInsert m k v) k = some v := by
  unfold dictInsert dictLookup
  by_cases hmem : m.any (fun p => p.1 = k)
  · simp only [hmem, if_true]
    induction m with
    | nil => simp at hmem
    | cons p rest ih =>
      by_cases hp : p.1 = k
      · simp [hp, List.find?]
      · simp only [List.any_cons, hp, decide_eq_true_eq, false_or] at hmem
        simp only [List.map_cons, if_neg hp, List.find?]
        have : (decide (p.1 = k)) = false := by simp [hp]
        rw [this]
        exact ih hmem
  · simp only [hmem, if_false]
    induction m with
    | nil => simp [List.find?]
    | cons p rest ih =>
      simp only [List.any_cons, Bool.or_eq_true, decide_eq_true_eq, not_or] at hmem
      simp only [List.cons_append, List.find?]
      have : (decide (p.1 = k)) = false := by simp [hmem.1]
      rw [this]
      exact ih (by simp [hmem.2])

theorem dictContains_dictInsert (m : List (String × Nat)) (k : String) (v : Nat) :
    dictContains (dictInsert m k v) k = true := by
  have h := dictLookup_dictInsert m k v
  unfold dictLookup at h
  unfold dictContains
  rcases hf : (dictInsert m k v).find? (fun p => p.1 = k) with _ | p
  · rw [hf] at h; simp at h
  · have hp := List.find?_some hf
    have hmem := List.mem_of_find?_eq_some hf
    simp only [decide_eq_true_eq] at hp
    exact List.any_eq_true.mpr ⟨p, hmem, by simp [hp]⟩

theorem countClose_append_accept (es : List ConnEffect) (c w : Nat) :
    countClose (es ++ [ConnEffect.accept w]) c = countClose es c := by
  unfold countClose
  rw [List.count_append]
  simp [List.count_singleton]

/-- C1: the source `ConnectionManager.connect` never closes the superseded
websocket: after `connect "d" 1; connect "d" 2` from the empty state,
connection 1 has been closed zero times, not once. -/
theorem C1_counterexample : ¬ C1_claim := by
  intro h
  have := h ConnState.init "d" 1 2
  simp [ConnectionManager.connect, ConnState.init, countClose] at this

/-- C1 amended: re-registering a device id replaces the stored connection
without closing the prior one — no close effect is ever emitted by
`connect`, and afterwards `is_connected`/the map reflect only the new
connection `c2`. -/
theorem C1_amended (s : ConnState) (id : String) (c1 c2 : Nat) :
    dictLookup
        (ConnectionManager.connect (ConnectionManager.connect s id c1) id c2).active
        id = some c2 ∧
    ConnectionManager.is_connected
        (ConnectionManager.connect (ConnectionManager.connect s id c1) id c2) id = true ∧
    countClose
        (ConnectionManager.connect (ConnectionManager.connect s id c1) id c2).effects
        c1 = countClose s.effects c1 := by
  refine ⟨?_, ?_, ?_⟩
  · exact dictLookup_dictInsert _ id c2
  · exact dictContains_dictInsert _ id c2
  · show countClose ((s.effects ++ [ConnEffect.accept c1]) ++ [ConnEffect.accept c2]) c1
        = countClose s.effects c1
    rw [countClose_append_accept, countClose_append_accept]

theorem C1_amended_witness :
    dictLookup
        (ConnectionManager.connect (ConnectionManager.connect ConnState.init "d" 1) "d" 2).active
        "d" = some 2 ∧
    ConnectionManager.is_connected
        (ConnectionManager.connect (ConnectionManager.connect ConnState.init "d" 1) "d" 2)
        "d" = true ∧
    countClose
        (ConnectionManager.connect (ConnectionManager.connect ConnState.init "d" 1) "d" 2).effects
        1 = countClose ConnState.init.effects 1 :=
  C1_amended ConnState.init "d" 1 2

/-- C2: dispatching to an unknown device id raises `HTTPException(404,
"Device not found")` — a thrown exception, not a structured command
response. -/
theorem C2_counterexample : ¬ C2_claim := by
  intro h
  have := h [] ConnState.init "d" "reboot" (by decide)
  simp [send_command_route, ConnState.init, DispatchResult.isCmdResponse] at this

/-- C2 amended: dispatch to an unknown device id raises an HTTP 404
exception ("Device not found") and writes nothing to any socket; dispatch
to a known but disconnected device returns the structured response
`status="error"`, `error="Device is not connected"` and writes nothing to
any socket. -/
theorem C2_amended (dbIds : List String) (s : ConnState) (device_id command : String) :
    (dbIds.contains device_id = false →
      send_command_route dbIds s device_id command
        = (DispatchResult.httpError 404 "Device not found", [])) ∧
    (dbIds.contains device_id = true →
      ConnectionManager.is_connected s device_id = false →
      send_command_route dbIds s device_id command
        = (DispatchResult.cmdResponse device_id "error" (some "Device is not connected"), [])) := by
  constructor
  · intro h
    have h' : device_id ∉ dbIds := by simpa using h
    simp [send_command_route, h']
  · intro h hconn
    have h' : device_id ∈ dbIds := by simpa using h
    simp [send_command_route, h', hconn]

theorem C2_amended_witness :
    ([] : List String).contains "d" = false ∧
    send_command_route [] ConnState.init "d" "reboot"
      = (DispatchResult.httpError 404 "Device not found", []) ∧
    ["d"].contains "d" = true ∧
    ConnectionManager.is_connected ConnState.init "d" = false ∧
    send_command_route ["d"] ConnState.init "d" "reboot"
      = (DispatchResult.cmdResponse "d" "error" (some "Device is not connected"), []) :=
  ⟨by decide,
   (C2_amended [] ConnState.init "d" "reboot").1 (by decide),
   by decide, by decide,
   (C2_amended ["d"] ConnState.init "d" "reboot").2 (by decide) (by decide)⟩

/-- C3: a malformed message (protocol error / read failure other than
`WebSocketDisconnect`) lands in the bare `except Exception` handler,
which sets `is_online = False` but does not touch `last_seen`: at time 5,
the device's last-seen stays 0. -/
theorem C3_counterexample : ¬ C3_claim := by
  intro h
  have := (h 5 ⟨true, some 0⟩ Inbound.malformed (by decide)).2
  simp [wsStep] at this

/-- C3 amended: establishment marks the device online with last-seen
recorded; each heartbeat updates last-seen to the current time and is
answered with `heartbeat_ack`; a graceful close records last-seen at the
termination instant and marks the device offline; but any other
termination (protocol error or read failure) only marks the device
offline, leaving last-seen unchanged. -/
theorem C3_amended (now : Nat) (dev : DevState) :
    wsEstablish now dev = ⟨true, some now⟩ ∧
    wsStep now dev (Inbound.valid (some "heartbeat"))
      = (⟨dev.is_online, some now⟩, [Outbound.heartbeat_ack], true) ∧
    wsStep now dev Inbound.disconnect = (⟨false, some now⟩, [], false) ∧
    wsStep now dev Inbound.malformed = (⟨false, dev.last_seen⟩, [], false) := by
  refine ⟨rfl, rfl, rfl, rfl⟩

/-- C6: a malformed message terminates the read loop (the `except
Exception` handler runs outside the `while`): a heartbeat queued after a
malformed message is never processed and no ack is sent. -/
theorem C6_counterexample :
    ¬ C6_claim ∧
    wsRun ⟨true, some 0⟩ [(1, Inbound.malformed), (2, Inbound.valid (some "heartbeat"))]
      = (⟨false, some 0⟩, []) := by
  constructor
  · intro h
    have := h 1 ⟨true, some 0⟩
    simp [wsStep] at this
  · decide

/-- C6 amended: inbound messages of unrecognized type are dropped and the
read loop continues unchanged; a malformed message does not crash the
handler — the exception is caught and not propagated — but it ends the
read loop, marking the device offline with no reply sent. -/
theorem C6_amended (now : Nat) (dev : DevState) (ty : Option String) :
    (ty ≠ some "heartbeat" →
      wsStep now dev (Inbound.valid ty) = (dev, [], true)) ∧
    wsStep now dev Inbound.malformed
      = ({ dev with is_online := false }, [], false) := by
  constructor
  · intro h
    match ty with
    | none => rfl
    | some t =>
      by_cases h1 : t = "heartbeat"
      · exact absurd (by rw [h1]) h
      · by_cases h2 : t = "scan_result"
        · rw [h2]; rfl
        · by_cases h3 : t = "sensor_data"
          · rw [h3]; rfl
          · simp only [wsStep]
            split
            all_goals first
              | rfl
              | (rename_i heq; simp_all)
  · rfl

theorem C6_amended_witness :
    (some "bogus" ≠ some "heartbeat") ∧
    wsStep 7 ⟨true, some 3⟩ (Inbound.valid (some "bogus")) = (⟨true, some 3⟩, [], true) ∧
    wsStep 7 ⟨true, some 3⟩ Inbound.malformed = (⟨false, some 3⟩, [], false) :=
  ⟨by decide,
   (C6_amended 7 ⟨true, some 3⟩ (some "bogus")).1 (by decide),
   (C6_amended 7 ⟨true, some 3⟩ (some "bogus")).2⟩

/-- C4: when the external lookup misses (product absent upstream),
nothing is memoized and the next call runs the external lookup again —
two calls, two external lookups. -/
theorem C4_counterexample : ¬ C4_claim := by
  intro h
  have := h (fun _ => none) [] "x"
  simp [get_product_by_qr, cacheLookup] at this

theorem cacheLookup_cacheInsert (m : List (String × String)) (k v : String) :
    cacheLookup (cacheInsert m k v) k = some v := by
  unfold cacheInsert cacheLookup
  by_cases hmem : m.any (fun p => p.1 = k)
  · simp only [hmem, if_true]
    induction m with
    | nil => simp at hmem
    | cons p rest ih =>
      by_cases hp : p.1 = k
      · simp [hp, List.find?]
      · simp only [List.any_cons, hp, decide_eq_true_eq, false_or] at hmem
        simp only [List.map_cons, if_neg hp, List.find?]
        have : (decide (p.1 = k)) = false := by simp [hp]
        rw [this]
        exact ih hmem
  · simp only [hmem, if_false]
    induction m with
    | nil => simp [List.find?]
    | cons p rest ih =>
      simp only [List.any_cons, Bool.or_eq_true, decide_eq_true_eq, not_or] at hmem
      simp only [List.cons_append, List.find?]
      have : (decide (p.1 = k)) = false := by simp [hmem.1]
      rw [this]
      exact ih (by simp [hmem.2])

/-- C4 amended: when the first call's external lookup succeeds, the name
is memoized and the second call performs no external lookup; a miss is
not cached, so after a miss the cache is unchanged and the very next call
against an upstream that now has the product returns the new name. -/
theorem C4_amended (api api' : String → Option String)
    (cache : List (String × String)) (qr name : String) :
    (api qr = some name →
      (get_product_by_qr api (get_product_by_qr api cache qr).cache qr).externalCalls = 0 ∧
      (get_product_by_qr api (get_product_by_qr api cache qr).cache qr).name
        = (get_product_by_qr api cache qr).name) ∧
    (cacheLookup cache qr = none → api qr = none →
      ((get_product_by_qr api cache qr).cache = cache ∧
       (api' qr = some name →
         (get_product_by_qr api' (get_product_by_qr api cache qr).cache qr).name = name ∧
         (get_product_by_qr api' (get_product_by_qr api cache qr).cache qr).externalCalls = 1))) := by
  constructor
  · intro h
    rcases hc : cacheLookup cache qr with _ | n
    · have hins := cacheLookup_cacheInsert cache qr name
      simp [get_product_by_qr, hc, h, hins]
    · simp [get_product_by_qr, hc]
  · intro hc hmiss
    constructor
    · simp [get_product_by_qr, hc, hmiss]
    · intro hnew
      simp [get_product_by_qr, hc, hmiss, hnew]

theorem C4_amended_witness :
    ((fun q => if q = "x" then some "Widget-A" else none) "x" = some "Widget-A") ∧
    (cacheLookup [] "x" = none) ∧
    ((fun _ => (none : Option String)) "x" = none) ∧
    (get_product_by_qr (fun q => if q = "x" then some "Widget-A" else none)
        (get_product_by_qr (fun q => if q = "x" then some "Widget-A" else none) [] "x").cache
        "x").externalCalls = 0 ∧
    (get_product_by_qr (fun _ => none) [] "x").cache = ([] : List (String × String)) := by
  refine ⟨by decide, by decide, by decide, ?_, ?_⟩
  · exact ((C4_amended (fun q => if q = "x" then some "Widget-A" else none)
      (fun _ => none) [] "x" "Widget-A").1 (by decide)).1
  · exact ((C4_amended (fun _ => none) (fun _ => some "Widget-A") [] "x" "Widget-A").2
      (by decide) (by decide)).1

/-- C9: the `/clear_cache` route empties the whole cache, destroying the
entry for "x". -/
theorem C9_counterexample : ¬ C9_claim := by
  intro h
  have := h [("x", "Widget-A")] "x" "Widget-A" CacheOp.clearOp (by decide)
  simp [applyCacheOp, cacheLookup] at this

theorem cacheFind_map_update (m : List (String × String)) (k q w : String)
    (hk : k ≠ q) :
    List.find? (fun p => p.1 = k) (m.map (fun p => if p.1 = q then (q, w) else p))
      = List.find? (fun p => p.1 = k) m := by
  induction m with
  | nil => rfl
  | cons p rest ih =>
    simp only [List.map_cons]
    by_cases hp : p.1 = q
    · have h1 : ¬(((q, w) : String × String).1 = k) := fun he => hk he.symm
      have h2 : ¬(p.1 = k) := fun he => hk (hp.symm.trans he).symm
      rw [if_pos hp,
          List.find?_cons_of_neg _ (by simpa using h1),
          List.find?_cons_of_neg _ (by simpa using h2), ih]
    · rw [if_neg hp]
      by_cases hpk : p.1 = k
      · rw [List.find?_cons_of_pos _ (by simpa using hpk),
            List.find?_cons_of_pos _ (by simpa using hpk)]
      · rw [List.find?_cons_of_neg _ (by simpa using hpk),
            List.find?_cons_of_neg _ (by simpa using hpk), ih]

theorem cacheFind_append_miss (m : List (String × String)) (k q w : String)
    (hk : k ≠ q) :
    List.find? (fun p => p.1 = k) (m ++ [(q, w)])
      = List.find? (fun p => p.1 = k) m := by
  have h1 : List.find? (fun p => p.1 = k) [(q, w)] = none := by
    have : ¬(((q, w) : String × String).1 = k) := fun he => hk he.symm
    rw [List.find?_cons_of_neg _ (by simpa using this)]
    rfl
  rw [List.find?_append, h1, Option.or_none]

theorem cacheLookup_cacheInsert_ne (m : List (String × String)) (k q w : String)
    (hk : k ≠ q) : cacheLookup (cacheInsert m q w) k = cacheLookup m k := by
  unfold cacheInsert cacheLookup
  by_cases hmem : m.any (fun p => p.1 = q) = true
  · rw [if_pos hmem, cacheFind_map_update m k q w hk]
  · rw [if_neg hmem, cacheFind_append_miss m k q w hk]

/-- C9 amended: the lookup path never removes or invalidates a populated
entry — every `get_product_by_qr` call preserves existing bindings — but
the explicit `/clear_cache` endpoint destroys all entries at once. -/
theorem C9_amended (cache : List (String × String)) (k v : String)
    (api : String → Option String) (qr : String) :
    (cacheLookup cache k = some v →
      cacheLookup (applyCacheOp cache (CacheOp.lookupOp api qr)) k = some v) ∧
    cacheLookup (applyCacheOp cache CacheOp.clearOp) k = none := by
  constructor
  · intro h
    show cacheLookup (get_product_by_qr api cache qr).cache k = some v
    rcases hc : cacheLookup cache qr with _ | n
    · rcases hapi : api qr with _ | nm
      · simpa [get_product_by_qr, hc, hapi] using h
      · have hk : k ≠ qr := by
          intro he
          rw [he, hc] at h
          exact Option.noConfusion h
        have hcache : (get_product_by_qr api cache qr).cache = cacheInsert cache qr nm := by
          simp [get_product_by_qr, hc, hapi]
        rw [hcache, cacheLookup_cacheInsert_ne cache k qr nm hk]
        exact h
    · simpa [get_product_by_qr, hc] using h
  · rfl

theorem C9_amended_witness :
    cacheLookup [("x", "Widget-A")] "x" = some "Widget-A" ∧
    cacheLookup (applyCacheOp [("x", "Widget-A")] (CacheOp.lookupOp (fun _ => none) "y"))
      "x" = some "Widget-A" ∧
    cacheLookup (applyCacheOp [("x", "Widget-A")] CacheOp.clearOp) "x" = none :=
  ⟨by decide,
   (C9_amended [("x", "Widget-A")] "x" "Widget-A" (fun _ => none) "y").1 (by decide),
   (C9_amended [("x", "Widget-A")] "x" "Widget-A" (fun _ => none) "y").2⟩

/-- C5: the loop performs at most one marker scan per received chunk, so
when both frames arrive in a single chunk only the first is extracted
before the stream ends: the second complete frame is left sitting in the
buffer. -/
theorem C5_counterexample : ¬ C5_claim := by
  intro h
  have := h [255, 216, 1, 255, 217] [255, 216, 2, 255, 217]
    [[255, 216, 1, 255, 217, 255, 216, 2, 255, 217]]
    (by decide) (by decide) (by decide)
  simp [processChunks, processChunk, StreamState.init, findPair] at this

/-- Helper: feeding one whole well-formed frame as a chunk onto an empty
buffer extracts exactly that frame and leaves the buffer empty. -/
theorem processChunk_wellFormed (s : StreamState) (f : List Nat)
    (hbuf : s.buffer = []) (hf : wellFormedFrame f) :
    processChunk s f = ⟨[], s.frames ++ [f]⟩ := by
  obtain ⟨hlen, hsoi, heoi⟩ := hf
  simp only [processChunk, hbuf, List.nil_append]
  rw [hsoi, heoi]
  have hlt : 0 < f.length - 2 := by omega
  have hstop : f.length - 2 + 2 = f.length := by omega
  show (if 0 < f.length - 2 then
          ({ buffer := List.drop (f.length - 2 + 2) f,
             frames := s.frames ++ [List.drop 0 (List.take (f.length - 2 + 2) f)] } : StreamState)
        else ⟨f, s.frames⟩) = ⟨[], s.frames ++ [f]⟩
  rw [if_pos hlt, hstop, List.take_length, List.drop_length, List.drop_zero]

/-- C5 amended: the loop extracts at most one frame per received chunk;
when the two well-formed frames arrive in separate chunks (one frame per
chunk), exactly the two original byte runs are emitted, byte-identical
and in order, with an empty buffer left over. -/
theorem C5_amended (f1 f2 : List Nat)
    (h1 : wellFormedFrame f1) (h2 : wellFormedFrame f2) :
    (processChunks [f1, f2]).frames = [f1, f2] ∧
    (processChunks [f1, f2]).buffer = [] := by
  have e1 : processChunk StreamState.init f1 = ⟨[], [f1]⟩ := by
    rw [processChunk_wellFormed StreamState.init f1 rfl h1]
    rfl
  have e2 : processChunk (⟨[], [f1]⟩ : StreamState) f2 = ⟨[], [f1, f2]⟩ := by
    rw [processChunk_wellFormed ⟨[], [f1]⟩ f2 rfl h2]
    rfl
  show ((([f1, f2] : List (List Nat)).foldl processChunk StreamState.init).frames = [f1, f2])
      ∧ (([f1, f2] : List (List Nat)).foldl processChunk StreamState.init).buffer = []
  rw [List.foldl_cons, List.foldl_cons, List.foldl_nil, e1, e2]
  exact ⟨rfl, rfl⟩

theorem C5_amended_witness :
    wellFormedFrame [255, 216, 1, 255, 217] ∧
    wellFormedFrame [255, 216, 2, 255, 217] ∧
    (processChunks [[255, 216, 1, 255, 217], [255, 216, 2, 255, 217]]).frames
      = [[255, 216, 1, 255, 217], [255, 216, 2, 255, 217]] ∧
    (processChunks [[255, 216, 1, 255, 217], [255, 216, 2, 255, 217]]).buffer = [] :=
  ⟨by decide, by decide,
   (C5_amended [255, 216, 1, 255, 217] [255, 216, 2, 255, 217] (by decide) (by decide)).1,
   (C5_amended [255, 216, 1, 255, 217] [255, 216, 2, 255, 217] (by decide) (by decide)).2⟩

theorem findPair_replicate_zero (n a b : Nat) (ha : a ≠ 0) :
    findPair (List.replicate n 0) a b = none := by
  induction n with
  | zero => rfl
  | succ m ih =>
    cases m with
    | zero => rfl
    | succ m' =>
      show findPair (0 :: 0 :: List.replicate m' 0) a b = none
      unfold findPair
      rw [if_neg (by exact fun hc => ha hc.1.symm)]
      have : (0 : Nat) :: List.replicate m' 0 = List.replicate (m' + 1) 0 := rfl
      rw [this, ih]
      rfl

/-- Helper: a marker-free byte run is retained wholesale, so after
feeding `n` filler bytes the buffer holds all `n` of them. -/
theorem processChunks_replicate_buffer (n : Nat) :
    (processChunks [List.replicate n 0]).buffer = List.replicate n 0 := by
  show (processChunk StreamState.init (List.replicate n 0)).buffer = List.replicate n 0
  simp only [processChunk, StreamState.init, List.nil_append]
  rw [findPair_replicate_zero n 255 216 (by decide)]

/-- C7: there is no cap and no drop-and-resync in the source: a stream of
marker-free bytes makes the buffer exceed any fixed bound. -/
theorem C7_counterexample : ¬ C7_claim := by
  rintro ⟨cap, h⟩
  have hb := h [List.replicate (cap + 1) 0]
  rw [processChunks_replicate_buffer (cap + 1), List.length_replicate] at hb
  omega

/-- C7 amended: the buffer shrinks only by frame extraction; when the
accumulated bytes contain no start marker, the whole run is retained and
nothing is dropped, so marker-free input grows the buffer without bound
(after `n` filler bytes the buffer length is exactly `n`). -/
theorem C7_amended (s : StreamState) (chunk : List Nat) (n : Nat)
    (hnone : findPair (s.buffer ++ chunk) 255 216 = none) :
    (processChunk s chunk).buffer = s.buffer ++ chunk ∧
    (processChunk s chunk).frames = s.frames ∧
    (processChunks [List.replicate n 0]).buffer.length = n := by
  refine ⟨?_, ?_, ?_⟩
  · simp only [processChunk]
    rw [hnone]
  · simp only [processChunk]
    rw [hnone]
  · rw [processChunks_replicate_buffer n, List.length_replicate]

theorem C7_amended_witness :
    findPair ((StreamState.init.buffer) ++ [0, 0, 0]) 255 216 = none ∧
    (processChunk StreamState.init [0, 0, 0]).buffer = StreamState.init.buffer ++ [0, 0, 0] ∧
    (processChunk StreamState.init [0, 0, 0]).frames = StreamState.init.frames ∧
    (processChunks [List.replicate 5 0]).buffer.length = 5 :=
  ⟨by decide,
   (C7_amended StreamState.init [0, 0, 0] 5 (by decide)).1,
   (C7_amended StreamState.init [0, 0, 0] 5 (by decide)).2.1,
   (C7_amended StreamState.init [0, 0, 0] 5 (by decide)).2.2⟩

theorem annotateQR_counts (textSize : String → Int × Int)
    (api : String → Option String) (cache : List (String × String))
    (qr : QRCodeDet) :
    ((annotateQR textSize api cache qr).1.countP (fun a => a.isOutline)) = 1 ∧
    ((annotateQR textSize api cache qr).1.countP (fun a => a.isLabel)) = 1 := by
  unfold annotateQR
  by_cases hp : qr.polygon.length = 4
  · rw [if_pos hp]
    constructor <;> rfl
  · rw [if_neg hp]
    constructor <;> rfl

/-- C8: `process_frame` handles every detection — for each detected code
it draws exactly one outline and exactly one resolved-name label — and is
total on zero, one, or many detections. -/
theorem C8_process_frame_counts (textSize : String → Int × Int)
    (api : String → Option String) (cache : List (String × String))
    (dets : List QRCodeDet) :
    ((process_frame textSize api cache dets).1.countP (fun a => a.isOutline))
        = dets.length ∧
    ((process_frame textSize api cache dets).1.countP (fun a => a.isLabel))
        = dets.length := by
  induction dets generalizing cache with
  | nil => exact ⟨rfl, rfl⟩
  | cons qr rest ih =>
    have hq := annotateQR_counts textSize api cache qr
    have hr := ih (annotateQR textSize api cache qr).2
    simp only [process_frame, List.countP_append, List.length_cons]
    constructor
    · rw [hq.1, hr.1]
      omega
    · rw [hq.2, hr.2]
      omega

/-- C10: with `online_only`, the persisted-flag filter runs before the
live overwrite: a connected device whose persisted flag is false is
omitted (no returned row carries its id, given per-id uniqueness of the
table), and a persisted-online device that is not connected is returned
with its flag overwritten to false. -/
theorem C10_get_devices (dbDevices : List DeviceRec) (conns : List String)
    (d : DeviceRec) (hmem : d ∈ dbDevices)
    (huniq : ∀ a ∈ dbDevices, ∀ b ∈ dbDevices, a.device_id = b.device_id → a = b) :
    (d.is_online = false →
      ∀ r ∈ get_devices dbDevices conns true, r.device_id ≠ d.device_id) ∧
    (d.is_online = true → conns.contains d.device_id = false →
      (⟨d.device_id, false⟩ : DeviceRec) ∈ get_devices dbDevices conns true) := by
  have hdev : get_devices dbDevices conns true
      = (dbDevices.filter (fun d => d.is_online)).map
          (fun d => { d with is_online := conns.contains d.device_id }) := rfl
  constructor
  · intro hoff r hr
    rw [hdev] at hr
    obtain ⟨e, he, her⟩ := List.mem_map.mp hr
    obtain ⟨hedb, heon⟩ := List.mem_filter.mp he
    intro hid
    have hide : e.device_id = d.device_id := by
      rw [← her] at hid
      exact hid
    have hed := huniq e hedb d hmem hide
    rw [hed, hoff] at heon
    exact Bool.noConfusion heon
  · intro hon hconn
    have h1 : d ∈ dbDevices.filter (fun d => d.is_online) :=
      List.mem_filter.mpr ⟨hmem, by rw [hon]⟩
    have h2 : (fun d => ({ d with is_online := conns.contains d.device_id } : DeviceRec)) d
        = ⟨d.device_id, false⟩ := by
      show ({ d with is_online := conns.contains d.device_id } : DeviceRec)
          = ⟨d.device_id, false⟩
      rw [hconn]
    rw [hdev]
    exact h2 ▸ List.mem_map_of_mem _ h1

theorem C10_get_devices_witness :
    ((⟨"a", false⟩ : DeviceRec) ∈ [(⟨"a", false⟩ : DeviceRec), ⟨"b", true⟩]) ∧
    (∀ r ∈ get_devices [(⟨"a", false⟩ : DeviceRec), ⟨"b", true⟩] ["a"] true,
        r.device_id ≠ "a") ∧
    ((⟨"b", true⟩ : DeviceRec) ∈ [(⟨"a", false⟩ : DeviceRec), ⟨"b", true⟩]) ∧
    ((⟨"b", false⟩ : DeviceRec) ∈ get_devices [(⟨"a", false⟩ : DeviceRec), ⟨"b", true⟩] ["a"] true) := by
  refine ⟨by decide, ?_, by decide, ?_⟩
  · exact (C10_get_devices [⟨"a", false⟩, ⟨"b", true⟩] ["a"] ⟨"a", false⟩
      (by decide) (by decide)).1 rfl
  · exact (C10_get_devices [⟨"a", false⟩, ⟨"b", true⟩] ["a"] ⟨"b", true⟩
      (by decide) (by decide)).2 rfl (by decide)

end BrikaSadi9a
